import Mathlib

/-!
Verification of the `gemini-image-mcp` tool server (src/src/index.ts) against
its natural-language specification.

The development shallowly embeds the request validation / response
normalization pipeline of the server.  TypeScript data shapes become Lean
structures; JavaScript truthiness tests (`if (x)`, `x || dflt`) are modelled
explicitly on `Option String` values; thrown exceptions become
`Except String`; the two external effects (the upstream `generateContent`
network call and the `fs` write of the decoded image) become oracle function
parameters, so that a handler is a pure function of its input and oracles.

Naming note: the TypeScript field `aspectRatio` is embedded under the Lean
name `aspect` (in `GenerateImageParams`, `ImageConfig` and
`GenerationConfig`); every other field keeps its source name.
-/

namespace GeminiImageMCP

/-- JavaScript `o || dflt` on an optional string: `undefined` and the empty
string are falsy, so both fall back to the default. -/
def jsOrStr (o : Option String) (dflt : String) : String :=
  match o with
  | none => dflt
  | some s => if s = "" then dflt else s

/-- JavaScript truthiness of an optional string: `undefined` and `""` are
falsy, every other string is truthy. -/
def jsTruthyStr (o : Option String) : Bool :=
  match o with
  | none => false
  | some s => s ≠ ""

/-- Inclusion of one string in another (substring occurrence), decidable. -/
def strIncludes (hay needle : String) : Prop :=
  List.IsInfix needle.data hay.data

instance (hay needle : String) : Decidable (strIncludes hay needle) := by
  unfold strIncludes; infer_instance

/-! ### Request data model (index.ts lines 14-36) -/

/-- One caller-supplied image: base64 `data` plus a MIME type
(`Array<{ data: string; mimeType: string }>` items in index.ts). -/
structure RefImage where
  data : String
  mimeType : String
deriving DecidableEq, Repr

/-- `GenerateImageParams` (index.ts lines 15-22).  Optional fields are
`Option`; `none` is the absent / `undefined` case.  The source field
`aspectRatio` is named `aspect` here. -/
structure GenerateImageParams where
  prompt : String
  model : Option String := none
  aspect : Option String := none
  imageSize : Option String := none
  outputPath : Option String := none
  referenceImages : Option (List RefImage) := none
deriving DecidableEq, Repr

/-- `EditImageParams` (index.ts lines 24-30). -/
structure EditImageParams where
  prompt : String
  images : List RefImage
  model : Option String := none
  imageSize : Option String := none
  outputPath : Option String := none
deriving DecidableEq, Repr

/-! ### Model table (index.ts lines 38-45) -/

def MODELS_PRO : String := "gemini-3-pro-image-preview"

def MODELS_FLASH : String := "gemini-2.5-flash-preview-05-20"

def MODELS_LEGACY : String := "gemini-2.0-flash-exp"

def DEFAULT_MODEL : String := MODELS_PRO

/-! ### Upstream request shape -/

/-- `imageConfig` nested structure of the generation config
(index.ts lines 272-275 and 378-380).  The source field `aspectRatio` is
named `aspect` here; `generate_image` sets both fields, `edit_image` only
`imageSize`. -/
structure ImageConfig where
  aspect : Option String := none
  imageSize : Option String := none
deriving DecidableEq, Repr

/-- The `generationConfig` object passed to `getGenerativeModel`
(index.ts lines 266-279 and 372-381).  `aspect` embeds the flat legacy
`aspectRatio` field set for non-PRO models in `generateImage`. -/
structure GenerationConfig where
  responseModalities : List String
  imageConfig : Option ImageConfig := none
  aspect : Option String := none
deriving DecidableEq, Repr

/-- One content part of the upstream request: either
`{ inlineData: { mimeType, data } }` or `{ text }`
(index.ts lines 292-297, 301, 389-395). -/
inductive ReqPart where
  | inlineData (mimeType : String) (data : String)
  | text (t : String)
deriving DecidableEq, Repr

/-! ### Upstream response shape -/

/-- `part.inlineData` of a response part; the API may omit the MIME type,
and index.ts line 325/416 falls back to `"image/png"` on a falsy value. -/
structure RespInline where
  mimeType : Option String := none
  data : String
deriving DecidableEq, Repr

/-- One part of a response candidate's content: may carry `inlineData`,
`text`, both, or neither (index.ts lines 322-330 test the two fields
independently). -/
structure RespPart where
  inlineData : Option RespInline := none
  text : Option String := none
deriving DecidableEq, Repr

/-- `candidates[i].content`; `parts` is `none` when the field is absent
(index.ts line 313 tests `!content.parts`; an empty array is truthy). -/
structure RespContent where
  parts : Option (List RespPart) := none
deriving DecidableEq, Repr

/-- One candidate completion (index.ts line 312 reads
`candidates[0].content`, testing `!content`). -/
structure Candidate where
  content : Option RespContent := none
deriving DecidableEq, Repr

/-- The raw upstream response; `candidates` is `none` when absent
(index.ts line 308 tests `!candidates || candidates.length === 0`). -/
structure UpstreamResponse where
  candidates : Option (List Candidate) := none
deriving DecidableEq, Repr

/-! ### Host-facing result shape -/

/-- A content item of the `ToolResult` returned to the host:
`{type:"image", data, mimeType}` or `{type:"text", text}`. -/
inductive ContentItem where
  | image (data : String) (mimeType : String)
  | text (t : String)
deriving DecidableEq, Repr

/-- The result object returned to the host.  A success result carries no
`isError` field in the source, which we embed as `isError := false`. -/
structure ToolResult where
  content : List ContentItem
  isError : Bool := false
deriving DecidableEq, Repr

/-! ### Response normalizer scan (index.ts lines 317-330 and 410-418) -/

/-- The running accumulators of the `generateImage` scan loop
(index.ts lines 318-320): `imageData` starts `null`, `mimeType` starts
`"image/png"`, `textResponse` starts `""`. -/
structure ScanState where
  imageData : Option String := none
  mimeType : String := "image/png"
  textResponse : String := ""
deriving DecidableEq, Repr

/-- One iteration of the `generateImage` scan loop (index.ts lines 322-330):
an inline-media part overwrites `imageData`/`mimeType` (with the
`"image/png"` fallback for a falsy MIME type), and a truthy `text` field is
appended to `textResponse`; the two tests are independent. -/
def scanStep (s : ScanState) (p : RespPart) : ScanState :=
  let s1 : ScanState :=
    match p.inlineData with
    | some d => { s with imageData := some d.data,
                         mimeType := jsOrStr d.mimeType "image/png" }
    | none => s
  match p.text with
  | some t => if t = "" then s1 else { s1 with textResponse := s1.textResponse ++ t }
  | none => s1

/-- The full `generateImage` scan loop over the first candidate's parts. -/
def scanParts (ps : List RespPart) : ScanState :=
  ps.foldl scanStep {}

/-- The running accumulators of the `editImage` scan loop
(index.ts lines 410-411): unlike `generateImage`, this loop keeps no text
accumulator. -/
structure EditScanState where
  imageData : Option String := none
  mimeType : String := "image/png"
deriving DecidableEq, Repr

/-- One iteration of the `editImage` scan loop (index.ts lines 413-418):
only inline-media parts are inspected; text parts are ignored. -/
def editScanStep (s : EditScanState) (p : RespPart) : EditScanState :=
  match p.inlineData with
  | some d => { imageData := some d.data,
                mimeType := jsOrStr d.mimeType "image/png" }
  | none => s

/-- The full `editImage` scan loop over the first candidate's parts. -/
def editScanParts (ps : List RespPart) : EditScanState :=
  ps.foldl editScanStep {}

/-- The sequence of inline-media payloads of a parts list, in order. -/
def inlineDatas (ps : List RespPart) : List RespInline :=
  ps.filterMap (fun p => p.inlineData)

/-- The sequence of text payloads of a parts list, in order. -/
def textDatas (ps : List RespPart) : List String :=
  ps.filterMap (fun p => p.text)

/-- Concatenation of a list of strings in order. -/
def concatAll : List String → String
  | [] => ""
  | t :: l => t ++ concatAll l

/-- Folding the image/mime accumulators over just the inline payloads:
each inline payload overwrites the pair. -/
def lastInlineAcc (l : List RespInline) (acc : Option String × String) :
    Option String × String :=
  l.foldl (fun _ d => (some d.data, jsOrStr d.mimeType "image/png")) acc

/-! ### Response normalization -/

/-- The normalized outcome of a `generate_image` call (the narrowed values
used after the `!imageData` check, index.ts lines 332-359). -/
structure GenOutcome where
  imageData : String
  mimeType : String
  textResponse : String
deriving DecidableEq, Repr

/-- Normalization of the raw upstream response for `generate_image`
(index.ts lines 307-334): candidate and content presence checks, the scan
loop, and the `!imageData` check (`null` and `""` are both falsy). -/
def normalizeGenerate (r : UpstreamResponse) : Except String GenOutcome :=
  match r.candidates with
  | none => .error "No response generated"
  | some [] => .error "No response generated"
  | some (c :: _) =>
    match c.content with
    | none => .error "No content in response"
    | some content =>
      match content.parts with
      | none => .error "No content in response"
      | some parts =>
        let s := scanParts parts
        match s.imageData with
        | none => .error ("No image generated. Model response: " ++ s.textResponse)
        | some d =>
          if d = "" then
            .error ("No image generated. Model response: " ++ s.textResponse)
          else
            .ok { imageData := d, mimeType := s.mimeType,
                  textResponse := s.textResponse }

/-- Normalization of the raw upstream response for `edit_image`
(index.ts lines 400-421): same presence checks, the text-free scan loop,
and a fixed error message when no image is present. -/
def normalizeEdit (r : UpstreamResponse) : Except String (String × String) :=
  match r.candidates with
  | none => .error "No response generated"
  | some [] => .error "No response generated"
  | some (c :: _) =>
    match c.content with
    | none => .error "No content in response"
    | some content =>
      match content.parts with
      | none => .error "No content in response"
      | some parts =>
        let s := editScanParts parts
        match s.imageData with
        | none => .error "No edited image generated"
        | some d =>
          if d = "" then .error "No edited image generated"
          else .ok (d, s.mimeType)

/-! ### Defaults, generation config, and request content parts -/

/-- Destructuring default `model = DEFAULT_MODEL` (index.ts line 258). -/
def resolvedGenModel (p : GenerateImageParams) : String :=
  p.model.getD DEFAULT_MODEL

/-- Destructuring default `aspectRatio = "1:1"` (index.ts line 259). -/
def resolvedGenAspect (p : GenerateImageParams) : String :=
  p.aspect.getD "1:1"

/-- Destructuring default `imageSize = "1K"` (index.ts line 260). -/
def resolvedGenSize (p : GenerateImageParams) : String :=
  p.imageSize.getD "1K"

/-- The `generationConfig` built by `generateImage` (index.ts lines
266-279): PRO gets the nested `imageConfig` with aspect ratio and size,
other models get the flat legacy aspect-ratio field. -/
def generateConfig (p : GenerateImageParams) : GenerationConfig :=
  if resolvedGenModel p = MODELS_PRO then
    { responseModalities := ["IMAGE", "TEXT"],
      imageConfig := some { aspect := some (resolvedGenAspect p),
                            imageSize := some (resolvedGenSize p) } }
  else
    { responseModalities := ["IMAGE", "TEXT"],
      aspect := some (resolvedGenAspect p) }

/-- A caller-supplied image as an upstream `inlineData` content part
(index.ts lines 292-297, 389-394). -/
def toInlinePart (img : RefImage) : ReqPart :=
  ReqPart.inlineData img.mimeType img.data

/-- The ordered upstream content parts built by `generateImage`
(index.ts lines 287-301): reference images first, when present and
nonempty, then the text prompt. -/
def generateParts (p : GenerateImageParams) : List ReqPart :=
  (match p.referenceImages with
   | some imgs => if imgs.length > 0 then imgs.map toInlinePart else []
   | none => []) ++ [ReqPart.text p.prompt]

/-- Destructuring default `model = DEFAULT_MODEL` (index.ts line 366). -/
def resolvedEditModel (p : EditImageParams) : String :=
  p.model.getD DEFAULT_MODEL

/-- Destructuring default `imageSize = "1K"` (index.ts line 367). -/
def resolvedEditSize (p : EditImageParams) : String :=
  p.imageSize.getD "1K"

/-- The `generationConfig` built by `editImage` (index.ts lines 372-381):
PRO gets a nested `imageConfig` with only the size; other models get no
extra field. -/
def editConfig (p : EditImageParams) : GenerationConfig :=
  if resolvedEditModel p = MODELS_PRO then
    { responseModalities := ["IMAGE", "TEXT"],
      imageConfig := some { imageSize := some (resolvedEditSize p) } }
  else
    { responseModalities := ["IMAGE", "TEXT"] }

/-- The ordered upstream content parts built by `editImage`
(index.ts lines 389-395): the target images in order, then the prompt. -/
def editParts (p : EditImageParams) : List ReqPart :=
  p.images.map toInlinePart ++ [ReqPart.text p.prompt]

/-! ### Handlers and dispatcher -/

/-- Oracle for the upstream `generateContent` call: model name, generation
config and ordered content parts map to the raw response. -/
abbrev UpstreamOracle := String → GenerationConfig → List ReqPart → UpstreamResponse

/-- Oracle for the `fs` save block (index.ts lines 337-343 and 424-430):
given output path and base64 payload, succeeds or fails with the thrown
error message. -/
abbrev FsWriteOracle := String → String → Except String Unit

/-- The status text of a successful `generate_image` result
(index.ts lines 352-357); the branch is on JS truthiness of `outputPath`. -/
def generateStatusText (size : String) (outputPath : Option String) : String :=
  if jsTruthyStr outputPath then
    "Image generated (" ++ size ++ ") and saved to: " ++ outputPath.getD ""
  else
    "Image generated successfully (" ++ size ++ ")"

/-- The status text of a successful `edit_image` result
(index.ts lines 439-444). -/
def editStatusText (size : String) (outputPath : Option String) : String :=
  if jsTruthyStr outputPath then
    "Image edited (" ++ size ++ ") and saved to: " ++ outputPath.getD ""
  else
    "Image edited successfully (" ++ size ++ ")"

/-- The `generateImage` handler (index.ts lines 255-360), as a pure
function of the request and the two effect oracles.  A thrown error is an
`Except.error` carrying the message. -/
def generateImage (u : UpstreamOracle) (w : FsWriteOracle)
    (p : GenerateImageParams) : Except String ToolResult :=
  let r := u (resolvedGenModel p) (generateConfig p) (generateParts p)
  match normalizeGenerate r with
  | .error m => .error m
  | .ok o =>
    let saved : Except String Unit :=
      if jsTruthyStr p.outputPath then w (p.outputPath.getD "") o.imageData
      else .ok ()
    match saved with
    | .error m => .error m
    | .ok _ =>
      .ok { content := [ ContentItem.image o.imageData o.mimeType,
                         ContentItem.text
                           (generateStatusText (resolvedGenSize p) p.outputPath) ],
            isError := false }

/-- The `editImage` handler (index.ts lines 362-447), as a pure function of
the request and the two effect oracles. -/
def editImage (u : UpstreamOracle) (w : FsWriteOracle)
    (p : EditImageParams) : Except String ToolResult :=
  let r := u (resolvedEditModel p) (editConfig p) (editParts p)
  match normalizeEdit r with
  | .error m => .error m
  | .ok o =>
    let saved : Except String Unit :=
      if jsTruthyStr p.outputPath then w (p.outputPath.getD "") o.fst
      else .ok ()
    match saved with
    | .error m => .error m
    | .ok _ =>
      .ok { content := [ ContentItem.image o.fst o.snd,
                         ContentItem.text
                           (editStatusText (resolvedEditSize p) p.outputPath) ],
            isError := false }

/-- The dispatcher's catch clause (index.ts lines 245-251): any thrown
error becomes an error-shaped result whose single text part is
`"Error: " ++ message`. -/
def wrapError (m : String) : ToolResult :=
  { content := [ ContentItem.text ("Error: " ++ m) ], isError := true }

/-- The dispatcher route for `generate_image` (index.ts lines 231-251). -/
def dispatchGenerate (u : UpstreamOracle) (w : FsWriteOracle)
    (p : GenerateImageParams) : ToolResult :=
  match generateImage u w p with
  | .error m => wrapError m
  | .ok res => res

/-- The dispatcher route for `edit_image` (index.ts lines 231-251). -/
def dispatchEdit (u : UpstreamOracle) (w : FsWriteOracle)
    (p : EditImageParams) : ToolResult :=
  match editImage u w p with
  | .error m => wrapError m
  | .ok res => res

/-! ### Tool Request Validator (spec-modelled) -/

/-- Modelled from the spec: enforcement of the declarative input schema
(`minItems: 1`, `maxItems: 14` on `images` in the `tools` table, index.ts
lines 119-138) is performed by the MCP host/SDK layer, whose code is not
part of this repository.  Following spec §4.1 and §8, the Validator rejects
an `edit_image` request whose `images` sequence is empty
("images required") or longer than 14 items, before any upstream call. -/
def validateEditImage (p : EditImageParams) : Except String Unit :=
  if p.images.length = 0 then .error "images required"
  else if p.images.length > 14 then .error "images must contain at most 14 items"
  else .ok ()

/-- Modelled from the spec: enforcement of the declarative input schema
(`maxItems: 14` on `referenceImages` in the `tools` table, index.ts lines
84-103) is performed by the MCP host/SDK layer, whose code is not part of
this repository.  Following spec §4.1 and §8, the Validator rejects a
`generate_image` request whose `referenceImages` sequence is longer than 14
items, before any upstream call. -/
def validateGenerateImage (p : GenerateImageParams) : Except String Unit :=
  match p.referenceImages with
  | some imgs =>
      if imgs.length > 14 then
        .error "referenceImages must contain at most 14 items"
      else .ok ()
  | none => .ok ()

/-- Dispatcher route for `generate_image` including the spec-modelled
Validator: a validation failure is wrapped like any other error and the
handler (hence the upstream oracle) is never consulted. -/
def dispatchGenerateValidated (u : UpstreamOracle) (w : FsWriteOracle)
    (p : GenerateImageParams) : ToolResult :=
  match validateGenerateImage p with
  | .error m => wrapError m
  | .ok _ => dispatchGenerate u w p

/-- Dispatcher route for `edit_image` including the spec-modelled
Validator. -/
def dispatchEditValidated (u : UpstreamOracle) (w : FsWriteOracle)
    (p : EditImageParams) : ToolResult :=
  match validateEditImage p with
  | .error m => wrapError m
  | .ok _ => dispatchEdit u w p

/-! ### Concrete data used by the claim theorems and witnesses -/

/-- An upstream response with a single candidate holding the given parts. -/
def mkSingleCandidate (ps : List RespPart) : UpstreamResponse :=
  { candidates := some [ { content := some { parts := some ps } } ] }

/-- A reference image used to build concrete witness requests. -/
def imgW : RefImage := { data := "QUJD", mimeType := "image/png" }

/-- A response whose single candidate carries one usable inline image. -/
def respOneImage : UpstreamResponse :=
  mkSingleCandidate
    [ { inlineData := some { mimeType := some "image/png", data := "QUJD" } } ]

/-- A response whose single candidate carries only a text part (the
upstream model explained a refusal instead of producing an image). -/
def respTextOnly : UpstreamResponse :=
  mkSingleCandidate [ { text := some "refusal" } ]

/-- Concrete parts list for the C5 witness: inline part A, a text part,
then inline part B. -/
def partsABtext : List RespPart :=
  [ { inlineData := some { mimeType := some "image/jpeg", data := "AA" } },
    { text := some "between" },
    { inlineData := some { mimeType := some "image/webp", data := "BB" } } ]

/-! ### Scan-loop lemmas -/

theorem scanStep_image_mime (s : ScanState) (p : RespPart) :
    ((scanStep s p).imageData, (scanStep s p).mimeType)
      = (match p.inlineData with
         | some d => ((some d.data : Option String), jsOrStr d.mimeType "image/png")
         | none => (s.imageData, s.mimeType)) := by
  unfold scanStep
  cases p.inlineData with
  | none =>
    cases p.text with
    | none => rfl
    | some t => by_cases h : t = "" <;> simp [h]
  | some d =>
    cases p.text with
    | none => rfl
    | some t => by_cases h : t = "" <;> simp [h]

theorem scanStep_textResponse (s : ScanState) (p : RespPart) :
    (scanStep s p).textResponse
      = s.textResponse ++ (match p.text with | some t => t | none => "") := by
  unfold scanStep
  cases p.inlineData with
  | none =>
    cases p.text with
    | none => simp
    | some t => by_cases h : t = "" <;> simp [h]
  | some d =>
    cases p.text with
    | none => simp
    | some t => by_cases h : t = "" <;> simp [h]

theorem scan_foldl_inline (ps : List RespPart) : ∀ s : ScanState,
    ((ps.foldl scanStep s).imageData, (ps.foldl scanStep s).mimeType)
      = lastInlineAcc (inlineDatas ps) (s.imageData, s.mimeType) := by
  induction ps with
  | nil => intro s; rfl
  | cons p ps ih =>
    intro s
    have h := scanStep_image_mime s p
    cases hd : p.inlineData with
    | none =>
      simp only [List.foldl_cons, ih (scanStep s p)]
      rw [hd] at h
      simp only [inlineDatas, List.filterMap_cons, hd]
      have h1 : (scanStep s p).imageData = s.imageData := congrArg Prod.fst h
      have h2 : (scanStep s p).mimeType = s.mimeType := congrArg Prod.snd h
      rw [h1, h2]
    | some d =>
      simp only [List.foldl_cons, ih (scanStep s p)]
      rw [hd] at h
      simp only [inlineDatas, List.filterMap_cons, hd]
      have h1 : (scanStep s p).imageData = some d.data := congrArg Prod.fst h
      have h2 : (scanStep s p).mimeType = jsOrStr d.mimeType "image/png" :=
        congrArg Prod.snd h
      rw [h1, h2]
      rfl

theorem scan_foldl_text (ps : List RespPart) : ∀ s : ScanState,
    (ps.foldl scanStep s).textResponse
      = s.textResponse ++ concatAll (textDatas ps) := by
  induction ps with
  | nil => intro s; simp [textDatas, concatAll]
  | cons p ps ih =>
    intro s
    simp only [List.foldl_cons, ih (scanStep s p), scanStep_textResponse]
    cases ht : p.text <;>
      simp [textDatas, List.filterMap_cons, ht, concatAll, String.append_assoc]

theorem edit_foldl_inline (ps : List RespPart) : ∀ s : EditScanState,
    ((ps.foldl editScanStep s).imageData, (ps.foldl editScanStep s).mimeType)
      = lastInlineAcc (inlineDatas ps) (s.imageData, s.mimeType) := by
  induction ps with
  | nil => intro s; rfl
  | cons p ps ih =>
    intro s
    cases hd : p.inlineData with
    | none =>
      simp only [List.foldl_cons, ih, editScanStep, hd,
        inlineDatas, List.filterMap_cons]
    | some d =>
      simp only [List.foldl_cons, ih, editScanStep, hd,
        inlineDatas, List.filterMap_cons]
      rfl

theorem lastInlineAcc_append_last (l : List RespInline) (d : RespInline)
    (acc : Option String × String) :
    lastInlineAcc (l ++ [d]) acc
      = (some d.data, jsOrStr d.mimeType "image/png") := by
  simp [lastInlineAcc, List.foldl_append]

theorem lastInlineAcc_nil (acc : Option String × String) :
    lastInlineAcc [] acc = acc := rfl

/-! ### Shared helper lemmas about the normalizers -/

theorem scanParts_last_inline (ps : List RespPart) (l : List RespInline)
    (d : RespInline) (h : inlineDatas ps = l ++ [d]) :
    (scanParts ps).imageData = some d.data
  ∧ (scanParts ps).mimeType = jsOrStr d.mimeType "image/png" := by
  have h1 := scan_foldl_inline ps {}
  rw [h, lastInlineAcc_append_last] at h1
  unfold scanParts
  exact ⟨congrArg Prod.fst h1, congrArg Prod.snd h1⟩

theorem scanParts_no_inline (ps : List RespPart) (h : inlineDatas ps = []) :
    (scanParts ps).imageData = none := by
  have h1 := scan_foldl_inline ps {}
  rw [h, lastInlineAcc_nil] at h1
  unfold scanParts
  exact congrArg Prod.fst h1

theorem scanParts_text (ps : List RespPart) :
    (scanParts ps).textResponse = concatAll (textDatas ps) := by
  have h1 := scan_foldl_text ps {}
  unfold scanParts
  rw [h1]
  simp

theorem editScanParts_last_inline (ps : List RespPart) (l : List RespInline)
    (d : RespInline) (h : inlineDatas ps = l ++ [d]) :
    (editScanParts ps).imageData = some d.data
  ∧ (editScanParts ps).mimeType = jsOrStr d.mimeType "image/png" := by
  have h1 := edit_foldl_inline ps {}
  rw [h, lastInlineAcc_append_last] at h1
  unfold editScanParts
  exact ⟨congrArg Prod.fst h1, congrArg Prod.snd h1⟩

theorem editScanParts_no_inline (ps : List RespPart) (h : inlineDatas ps = []) :
    (editScanParts ps).imageData = none := by
  have h1 := edit_foldl_inline ps {}
  rw [h, lastInlineAcc_nil] at h1
  unfold editScanParts
  exact congrArg Prod.fst h1

/-! ### Claim theorems -/

/-- C1: every `edit_image` call with an empty `images` sequence yields the
ValidationError result `"images required"` (wrapped by the dispatcher as
`"Error: images required"`), whatever the other fields are; since the
result is one and the same for every upstream oracle `u` and write oracle
`w`, no content parts are built from the request and no remote call can be
observed — the request never reaches the Upstream Invocation Adapter. -/
theorem c1_edit_empty_images_rejected_before_adapter
    (prompt : String) (model imageSize outputPath : Option String)
    (u : UpstreamOracle) (w : FsWriteOracle) :
    dispatchEditValidated u w
      { prompt := prompt, images := [], model := model,
        imageSize := imageSize, outputPath := outputPath }
      = { content := [ContentItem.text "Error: images required"],
          isError := true } := rfl

/-- C2: a `generate_image` call whose `referenceImages` has length 15 is
rejected by the Validator with a ValidationError, regardless of the content
of the elements and of the oracles; with length exactly 14 the Validator
accepts the request (`Except.ok`) and the validated dispatcher coincides
with the unvalidated pipeline, i.e. the request proceeds to the Adapter. -/
theorem c2_referenceImages_bound (p : GenerateImageParams)
    (imgs : List RefImage) (h : p.referenceImages = some imgs) :
    (imgs.length = 15 →
      ∀ (u : UpstreamOracle) (w : FsWriteOracle),
        dispatchGenerateValidated u w p
          = { content := [ContentItem.text
                ("Error: referenceImages must contain at most 14 items")],
              isError := true })
  ∧ (imgs.length = 14 →
      validateGenerateImage p = Except.ok ()
      ∧ ∀ (u : UpstreamOracle) (w : FsWriteOracle),
          dispatchGenerateValidated u w p = dispatchGenerate u w p) := by
  constructor
  · intro h15 u w
    simp [dispatchGenerateValidated, validateGenerateImage, h, h15, wrapError]
  · intro h14
    have hv : validateGenerateImage p = Except.ok () := by
      simp [validateGenerateImage, h, h14]
    exact ⟨hv, fun u w => by simp [dispatchGenerateValidated, hv]⟩

/-- Witness for C2 at concrete requests: a request with 15 reference images
is rejected with the ValidationError result, and a request with 14
reference images passes validation and proceeds to the (stub) Adapter. -/
theorem c2_referenceImages_bound_witness :
    dispatchGenerateValidated (fun _ _ _ => { candidates := none })
        (fun _ _ => Except.ok ())
        { prompt := "x", referenceImages := some (List.replicate 15 imgW) }
      = { content := [ContentItem.text
            ("Error: referenceImages must contain at most 14 items")],
          isError := true }
  ∧ validateGenerateImage
        { prompt := "x", referenceImages := some (List.replicate 14 imgW) }
      = Except.ok () :=
  ⟨(c2_referenceImages_bound
      { prompt := "x", referenceImages := some (List.replicate 15 imgW) }
      (List.replicate 15 imgW) rfl).1 rfl
      (fun _ _ _ => { candidates := none }) (fun _ _ => Except.ok ()),
   ((c2_referenceImages_bound
      { prompt := "x", referenceImages := some (List.replicate 14 imgW) }
      (List.replicate 14 imgW) rfl).2 rfl).1⟩

/-- C3 counterexample: a `generate_image` call whose upstream response
yields a usable image but whose write to the supplied `outputPath` throws
returns an error-shaped ToolResult (`isError: true`, no image part) — the
write failure propagates to the dispatcher's catch clause, so the claim
that the result stays success-shaped is false at this input. -/
theorem c3_counterexample :
    dispatchGenerate (fun _ _ _ => respOneImage)
        (fun _ _ => Except.error "EACCES: permission denied")
        { prompt := "x", outputPath := some "out/image.png" }
      = { content := [ContentItem.text "Error: EACCES: permission denied"],
          isError := true } := rfl

/-- C3 amended: for both `generate_image` and `edit_image`, when the
upstream response normalizes to a usable image but the write of the decoded
bytes to the (truthy) `outputPath` fails with message `m`, the thrown error
reaches the dispatcher's catch clause and the call returns the error-shaped
ToolResult `wrapError m` — the write failure does convert the outcome into
an error result, and the success-shaped result is returned only when the
write succeeds. -/
theorem c3_amended_write_failure_is_error (u : UpstreamOracle)
    (p : GenerateImageParams) (q : EditImageParams) (m : String)
    (o : GenOutcome) (e : String × String)
    (hg : normalizeGenerate
        (u (resolvedGenModel p) (generateConfig p) (generateParts p))
        = Except.ok o)
    (he : normalizeEdit (u (resolvedEditModel q) (editConfig q) (editParts q))
        = Except.ok e)
    (hp : jsTruthyStr p.outputPath = true)
    (hq : jsTruthyStr q.outputPath = true) :
    dispatchGenerate u (fun _ _ => Except.error m) p = wrapError m
  ∧ dispatchEdit u (fun _ _ => Except.error m) q = wrapError m := by
  constructor
  · simp [dispatchGenerate, generateImage, hg, hp]
  · simp [dispatchEdit, editImage, he, hq]

/-- Witness for C3 amended at a concrete request, response and failing
write oracle. -/
theorem c3_amended_write_failure_is_error_witness :
    dispatchGenerate (fun _ _ _ => respOneImage)
        (fun _ _ => Except.error "disk full")
        { prompt := "x", outputPath := some "img.png" }
      = wrapError "disk full"
  ∧ dispatchEdit (fun _ _ _ => respOneImage)
        (fun _ _ => Except.error "disk full")
        { prompt := "y", images := [imgW], outputPath := some "img.png" }
      = wrapError "disk full" :=
  c3_amended_write_failure_is_error (fun _ _ _ => respOneImage)
    { prompt := "x", outputPath := some "img.png" }
    { prompt := "y", images := [imgW], outputPath := some "img.png" }
    "disk full"
    { imageData := "QUJD", mimeType := "image/png", textResponse := "" }
    ("QUJD", "image/png") rfl rfl rfl rfl

/-- C4 counterexample: for `edit_image`, a response whose first candidate
has a text part `"refusal"` and no inline-media part fails with the fixed
message `"No edited image generated"`; the accumulated text is not included
in the message (the `editImage` loop keeps no text accumulator at all), so
the claim is false for `edit_image` at this input. -/
theorem c4_counterexample :
    normalizeEdit respTextOnly = Except.error "No edited image generated"
  ∧ dispatchEdit (fun _ _ _ => respTextOnly) (fun _ _ => Except.ok ())
        { prompt := "x", images := [imgW] }
      = { content := [ContentItem.text "Error: No edited image generated"],
          isError := true }
  ∧ ¬ strIncludes "No edited image generated" "refusal" :=
  ⟨rfl, rfl, by decide⟩

/-- C4 amended: when the scan finds no inline-media part, `generate_image`
fails with `"No image generated. Model response: "` followed by the
accumulated text of all text parts (so its message includes the accumulated
text), while `edit_image` fails with the fixed message
`"No edited image generated"` that does not carry the response text. -/
theorem c4_amended_no_image_error (ps : List RespPart)
    (h : inlineDatas ps = []) :
    normalizeGenerate (mkSingleCandidate ps)
      = Except.error ("No image generated. Model response: "
          ++ concatAll (textDatas ps))
  ∧ strIncludes ("No image generated. Model response: "
        ++ concatAll (textDatas ps))
      (concatAll (textDatas ps))
  ∧ normalizeEdit (mkSingleCandidate ps)
      = Except.error "No edited image generated" := by
  have hg : (scanParts ps).imageData = none := scanParts_no_inline ps h
  have ht := scanParts_text ps
  have he : (editScanParts ps).imageData = none := editScanParts_no_inline ps h
  refine ⟨?_, ?_, ?_⟩
  · simp [normalizeGenerate, mkSingleCandidate, hg, ht]
  · unfold strIncludes
    have hdata : ("No image generated. Model response: "
          ++ concatAll (textDatas ps)).data
        = ("No image generated. Model response: ").data
          ++ (concatAll (textDatas ps)).data := by
      simp
    rw [hdata]
    exact (List.suffix_append _ _).isInfix
  · simp [normalizeEdit, mkSingleCandidate, he]

/-- Witness for C4 amended at a concrete text-only parts list. -/
theorem c4_amended_no_image_error_witness :
    normalizeGenerate (mkSingleCandidate [ { text := some "refusal" } ])
      = Except.error ("No image generated. Model response: "
          ++ concatAll (textDatas [ { text := some "refusal" } ]))
  ∧ strIncludes ("No image generated. Model response: "
        ++ concatAll (textDatas [ { text := some "refusal" } ]))
      (concatAll (textDatas [ { text := some "refusal" } ]))
  ∧ normalizeEdit (mkSingleCandidate [ { text := some "refusal" } ])
      = Except.error "No edited image generated" :=
  c4_amended_no_image_error [ { text := some "refusal" } ] rfl

/-- C5: when the inline-media parts of the scanned parts list are exactly
`A` then `B` (text parts freely interleaved), the scan's running
`imageData` ends as `B`'s data (last inline part wins) and its
`textResponse` is the concatenation of all text parts in original order;
when `B`'s data is truthy the Normalizer returns exactly that outcome. -/
theorem c5_last_inline_wins (ps : List RespPart) (A B : RespInline)
    (h : inlineDatas ps = [A, B]) :
    (scanParts ps).imageData = some B.data
  ∧ (scanParts ps).textResponse = concatAll (textDatas ps)
  ∧ (B.data ≠ "" →
      normalizeGenerate (mkSingleCandidate ps)
        = Except.ok { imageData := B.data,
                      mimeType := jsOrStr B.mimeType "image/png",
                      textResponse := concatAll (textDatas ps) }) := by
  have h2 : inlineDatas ps = [A] ++ [B] := by simpa using h
  obtain ⟨hi, hm⟩ := scanParts_last_inline ps [A] B h2
  have ht := scanParts_text ps
  refine ⟨hi, ht, ?_⟩
  intro hne
  simp [normalizeGenerate, mkSingleCandidate, hi, hm, ht, hne]

/-- Witness for C5: two inline parts with a text part between them
(`partsABtext`). -/
theorem c5_last_inline_wins_witness :
    (scanParts partsABtext).imageData = some "BB"
  ∧ (scanParts partsABtext).textResponse = concatAll (textDatas partsABtext)
  ∧ normalizeGenerate (mkSingleCandidate partsABtext)
      = Except.ok { imageData := "BB",
                    mimeType := jsOrStr (some "image/webp") "image/png",
                    textResponse := concatAll (textDatas partsABtext) } :=
  ⟨(c5_last_inline_wins partsABtext
      { mimeType := some "image/jpeg", data := "AA" }
      { mimeType := some "image/webp", data := "BB" } rfl).1,
   (c5_last_inline_wins partsABtext
      { mimeType := some "image/jpeg", data := "AA" }
      { mimeType := some "image/webp", data := "BB" } rfl).2.1,
   (c5_last_inline_wins partsABtext
      { mimeType := some "image/jpeg", data := "AA" }
      { mimeType := some "image/webp", data := "BB" } rfl).2.2 (by decide)⟩

/-- C6: an upstream response with zero candidate completions (the
`candidates` field absent or the empty array) makes both normalizers fail
with `"No response generated"`, and the dispatcher converts this into a
ToolResult with `isError: true` whose content is the single text part
`"Error: No response generated"`, which contains that message. -/
theorem c6_zero_candidates (w : FsWriteOracle) (p : GenerateImageParams)
    (q : EditImageParams) :
    normalizeGenerate { candidates := none } = Except.error "No response generated"
  ∧ normalizeGenerate { candidates := some [] } = Except.error "No response generated"
  ∧ normalizeEdit { candidates := none } = Except.error "No response generated"
  ∧ normalizeEdit { candidates := some [] } = Except.error "No response generated"
  ∧ dispatchGenerate (fun _ _ _ => { candidates := none }) w p
      = { content := [ContentItem.text "Error: No response generated"],
          isError := true }
  ∧ dispatchGenerate (fun _ _ _ => { candidates := some [] }) w p
      = { content := [ContentItem.text "Error: No response generated"],
          isError := true }
  ∧ dispatchEdit (fun _ _ _ => { candidates := none }) w q
      = { content := [ContentItem.text "Error: No response generated"],
          isError := true }
  ∧ dispatchEdit (fun _ _ _ => { candidates := some [] }) w q
      = { content := [ContentItem.text "Error: No response generated"],
          isError := true }
  ∧ strIncludes "Error: No response generated" "No response generated" :=
  ⟨rfl, rfl, rfl, rfl, rfl, rfl, rfl, rfl, by decide⟩

/-- C7: a `generate_image` call supplying only a prompt resolves every
default before the Adapter is invoked: the model is the highest-tier PRO
model `"gemini-3-pro-image-preview"`, and since that model takes the nested
`imageConfig`, the generation config carries aspect ratio `"1:1"` and image
size `"1K"` (the `aspect` fields embed the source's `aspectRatio`).  The
handler passes exactly `resolvedGenModel` and `generateConfig` to the
upstream oracle, so these are the Adapter's invocation arguments. -/
theorem c7_generate_defaults (s : String) :
    resolvedGenModel { prompt := s } = MODELS_PRO
  ∧ MODELS_PRO = "gemini-3-pro-image-preview"
  ∧ resolvedGenAspect { prompt := s } = "1:1"
  ∧ resolvedGenSize { prompt := s } = "1K"
  ∧ generateConfig { prompt := s }
      = { responseModalities := ["IMAGE", "TEXT"],
          imageConfig := some { aspect := some "1:1", imageSize := some "1K" },
          aspect := none } :=
  ⟨rfl, rfl, rfl, rfl, rfl⟩

/-- C8: for every request, the content sequence sent upstream is the
caller-supplied images (`referenceImages` for `generate_image`, `images`
for `edit_image`) mapped to inline parts in their original order, followed
by exactly one text part holding the prompt as the final element; the input
order is never permuted. -/
theorem c8_parts_order (p : GenerateImageParams) (q : EditImageParams) :
    generateParts p
      = (p.referenceImages.getD []).map toInlinePart ++ [ReqPart.text p.prompt]
  ∧ editParts q = q.images.map toInlinePart ++ [ReqPart.text q.prompt] := by
  constructor
  · unfold generateParts
    cases hr : p.referenceImages with
    | none => simp
    | some imgs =>
      by_cases hl : imgs.length > 0
      · simp [hl]
      · have hz : imgs = [] := by
          have : imgs.length = 0 := by omega
          exact List.length_eq_zero.mp this
        simp [hz]
  · rfl

/-- C9: a single response part carrying both inline media and text
contributes to both accumulators in one scan step: it overwrites the
running `imageData`/`mimeType` and its text is appended to the running
`textResponse` (appending the empty string when the text is falsy, which is
the same string). -/
theorem c9_dual_part_both_accumulators (s : ScanState) (d : RespInline)
    (t : String) :
    scanStep s { inlineData := some d, text := some t }
      = { imageData := some d.data,
          mimeType := jsOrStr d.mimeType "image/png",
          textResponse := s.textResponse ++ t } := by
  unfold scanStep
  by_cases h : t = "" <;> simp [h]

/-- C10: for a call that succeeds, the mimeType of the returned image
content part is determined by the winning (last) inline-media part `d`:
`d`'s mimeType when that is truthy, and the default `"image/png"` when `d`
omits it — in particular the default applies when no inline part carries a
mimeType, and also when the winning part omits it even though an earlier
part carried one.  Stated for both `generate_image` and `edit_image`. -/
theorem c10_mime_of_winning_inline (ps : List RespPart)
    (l : List RespInline) (d : RespInline) (p : GenerateImageParams)
    (q : EditImageParams) (h : inlineDatas ps = l ++ [d])
    (hne : d.data ≠ "") :
    (dispatchGenerate (fun _ _ _ => mkSingleCandidate ps)
        (fun _ _ => Except.ok ()) p).content
      = [ ContentItem.image d.data (jsOrStr d.mimeType "image/png"),
          ContentItem.text
            (generateStatusText (resolvedGenSize p) p.outputPath) ]
  ∧ (dispatchEdit (fun _ _ _ => mkSingleCandidate ps)
        (fun _ _ => Except.ok ()) q).content
      = [ ContentItem.image d.data (jsOrStr d.mimeType "image/png"),
          ContentItem.text
            (editStatusText (resolvedEditSize q) q.outputPath) ] := by
  obtain ⟨hgi, hgm⟩ := scanParts_last_inline ps l d h
  obtain ⟨hei, hem⟩ := editScanParts_last_inline ps l d h
  have hg : normalizeGenerate (mkSingleCandidate ps)
      = Except.ok { imageData := d.data,
                    mimeType := jsOrStr d.mimeType "image/png",
                    textResponse := (scanParts ps).textResponse } := by
    simp [normalizeGenerate, mkSingleCandidate, hgi, hgm, hne]
  have he : normalizeEdit (mkSingleCandidate ps)
      = Except.ok (d.data, jsOrStr d.mimeType "image/png") := by
    simp [normalizeEdit, mkSingleCandidate, hei, hem, hne]
  constructor
  · cases hjs : jsTruthyStr p.outputPath <;>
      simp [dispatchGenerate, generateImage, hg, hjs]
  · cases hjs : jsTruthyStr q.outputPath <;>
      simp [dispatchEdit, editImage, he, hjs]

/-- Witness for C10: an earlier inline part carries `"image/jpeg"` but the
winning inline part omits its mimeType, so the returned image part defaults
to `"image/png"` in both tools. -/
theorem c10_mime_of_winning_inline_witness :
    (dispatchGenerate (fun _ _ _ => mkSingleCandidate
        [ { inlineData := some { mimeType := some "image/jpeg", data := "AA" } },
          { inlineData := some { mimeType := none, data := "BB" } } ])
        (fun _ _ => Except.ok ()) { prompt := "x" }).content
      = [ ContentItem.image "BB" (jsOrStr none "image/png"),
          ContentItem.text (generateStatusText (resolvedGenSize
            { prompt := "x" }) none) ]
  ∧ (dispatchEdit (fun _ _ _ => mkSingleCandidate
        [ { inlineData := some { mimeType := some "image/jpeg", data := "AA" } },
          { inlineData := some { mimeType := none, data := "BB" } } ])
        (fun _ _ => Except.ok ()) { prompt := "y", images := [imgW] }).content
      = [ ContentItem.image "BB" (jsOrStr none "image/png"),
          ContentItem.text (editStatusText (resolvedEditSize
            { prompt := "y", images := [imgW] }) none) ] :=
  c10_mime_of_winning_inline
    [ { inlineData := some { mimeType := some "image/jpeg", data := "AA" } },
      { inlineData := some { mimeType := none, data := "BB" } } ]
    [ { mimeType := some "image/jpeg", data := "AA" } ]
    { mimeType := none, data := "BB" }
    { prompt := "x" } { prompt := "y", images := [imgW] } rfl (by decide)

end GeminiImageMCP
